import Mathlib

/-!
Verification of the landslide risk scoring engine of the `lapsus` repository
(`server` file, function `calculateLandslideRisk` and the silt-derivation
policy of `fetchSoil`).

The engine is a pure function of a feature record; all its arithmetic is
JavaScript floating-point arithmetic over numbers, modelled here by exact
real arithmetic (`ℝ`), with `Math.cos`/`Math.sin`/`Math.tan`/`Math.PI`
modelled by `Real.cos`/`Real.sin`/`Real.tan`/`Real.pi` and
`Number(x.toFixed(2))` / `x.toFixed(0)` modelled by exact half-up rounding
to 2 / 0 decimal places.  The narrative strings built by the engine are
modelled as tagged sentences carrying the interpolated numeric values
(string rendering itself is presentation, not logic): each constructor of
`Sentence` stands for exactly one of the template strings pushed onto the
`sentences` array of the source, and `reason` is the list of pushed
sentences in source order (the source joins them with spaces).
-/

namespace Lapsus

open Real

open Classical in
/-- Half-up rounding to 2 decimal places; model of `Number(x.toFixed(2))`
for the (nonnegative) values the engine passes to it. -/
noncomputable def toFixed2 (x : ℝ) : ℝ := (⌊x * 100 + 1 / 2⌋ : ℤ) / 100

open Classical in
/-- Half-up rounding to an integer; model of `x.toFixed(0)` interpolation. -/
noncomputable def toFixed0 (x : ℝ) : ℝ := (⌊x + 1 / 2⌋ : ℤ)

/-- The feature record handed to `calculateLandslideRisk`
(destructured on its first line).  `precip_real` and `humidity` are not
read by the engine and are omitted. -/
structure FeatureSet where
  rain : ℝ
  slope : ℝ
  clay : ℝ
  sand : ℝ
  silt : ℝ
  bulk_density : ℝ
  elevation : ℝ
  temp : ℝ
  code : ℝ
  isWater : Bool

/-- The discrete risk level of the result. -/
inductive RiskLevel where
  | Safe
  | Low
  | Medium
  | High
  deriving DecidableEq

/-- One sentence of the narrative `reason`.  Each constructor corresponds to
one template string of the source; arguments carry the interpolated
numeric values (`clayRich` carries `clay.toFixed(0)`, `sandy` carries
`sand.toFixed(0)`, the slope sentences carry the raw `slope`). -/
inductive Sentence where
  | waterBody
  | snowIce
  | clayRich (clayPct : ℝ)
  | sandy (sandPct : ℝ)
  | balancedMix
  | steepSlope (slopeDeg : ℝ)
  | flatLand (slopeDeg : ℝ)
  | criticalRain
  | moderateRain

/-- The `details` record of the result. -/
structure RiskDetails where
  FoS : ℝ
  cohesion_base : ℝ
  friction_base : ℝ
  cohesion_effective : ℝ
  friction_effective : ℝ
  shear_strength : ℝ
  shear_stress : ℝ

/-- The full prediction result `{ level, reason, details }`. -/
structure PredictionResult where
  level : RiskLevel
  reason : List Sentence
  details : RiskDetails

/-- `isSeaOrWater`: the water-body override condition,
`isWater || (elevation >= -5 && elevation <= 5 && Math.abs(slope) < 0.5
&& bulk_density < 20)`. -/
def isSeaOrWater (f : FeatureSet) : Prop :=
  f.isWater = true ∨
    (f.elevation ≥ -5 ∧ f.elevation ≤ 5 ∧ |f.slope| < 0.5 ∧ f.bulk_density < 20)

/-- `isSnow`: the snow/ice override condition,
`[71, 73, 75, 77, 85, 86].includes(code) || temp < -1`. -/
def isSnow (f : FeatureSet) : Prop :=
  f.code = 71 ∨ f.code = 73 ∨ f.code = 75 ∨ f.code = 77 ∨ f.code = 85 ∨
    f.code = 86 ∨ f.temp < -1

/-- Baseline cohesion `c = (fClay * 35) + (fSilt * 10) + (fSand * 1)`
with `fClay = clay / 100` etc. -/
noncomputable def c (f : FeatureSet) : ℝ :=
  f.clay / 100 * 35 + f.silt / 100 * 10 + f.sand / 100 * 1

/-- Baseline friction angle `phi = (fSand * 34) + (fSilt * 28) + (fClay * 18)`. -/
noncomputable def phi (f : FeatureSet) : ℝ :=
  f.sand / 100 * 34 + f.silt / 100 * 28 + f.clay / 100 * 18

open Classical in
/-- The discrete saturation index: `0.1` overridden to `1.0` if
`rain > 800`, `0.7` if `rain > 400`, `0.4` if `rain > 100`. -/
noncomputable def saturationIndex (rain : ℝ) : ℝ :=
  if rain > 800 then 1.0
  else if rain > 400 then 0.7
  else if rain > 100 then 0.4
  else 0.1

/-- `c_eff = c * (1 - 0.5 * saturationIndex)`. -/
noncomputable def c_eff (f : FeatureSet) : ℝ :=
  c f * (1 - 0.5 * saturationIndex f.rain)

/-- `phi_eff = phi * (1 - 0.3 * saturationIndex)`. -/
noncomputable def phi_eff (f : FeatureSet) : ℝ :=
  phi f * (1 - 0.3 * saturationIndex f.rain)

/-- `c_used = Math.max(0, c_eff)`. -/
noncomputable def c_used (f : FeatureSet) : ℝ := max 0 (c_eff f)

/-- `phi_used = Math.max(5, phi_eff)`. -/
noncomputable def phi_used (f : FeatureSet) : ℝ := max 5 (phi_eff f)

/-- `gamma = (bulk_density / 100) * 9.81`. -/
noncomputable def gamma (f : FeatureSet) : ℝ := f.bulk_density / 100 * 9.81

/-- `z = 3.0`, the fixed slip-surface depth. -/
noncomputable def z : ℝ := 3.0

/-- `beta = slope * (Math.PI / 180)`. -/
noncomputable def beta (f : FeatureSet) : ℝ := f.slope * (Real.pi / 180)

/-- `sigma = gamma * z * Math.pow(Math.cos(beta), 2)`. -/
noncomputable def sigma (f : FeatureSet) : ℝ :=
  gamma f * z * Real.cos (beta f) ^ 2

/-- `tau_driving = gamma * z * Math.sin(beta) * Math.cos(beta)`. -/
noncomputable def tau_driving (f : FeatureSet) : ℝ :=
  gamma f * z * Real.sin (beta f) * Real.cos (beta f)

open Classical in
/-- Pore pressure `u`: `0` overridden to `sigma * 0.5` if `rain > 800`,
`sigma * 0.3` if `rain > 400`, `sigma * 0.1` if `rain > 100`. -/
noncomputable def u (f : FeatureSet) : ℝ :=
  if f.rain > 800 then sigma f * 0.5
  else if f.rain > 400 then sigma f * 0.3
  else if f.rain > 100 then sigma f * 0.1
  else 0

/-- `sigma_effective = Math.max(0, sigma - u)`. -/
noncomputable def sigma_effective (f : FeatureSet) : ℝ := max 0 (sigma f - u f)

/-- `tanPhi = Math.tan(phi_used * (Math.PI / 180))`. -/
noncomputable def tanPhi (f : FeatureSet) : ℝ :=
  Real.tan (phi_used f * (Real.pi / 180))

/-- `tau_resisting = c_used + (sigma_effective * tanPhi)`. -/
noncomputable def tau_resisting (f : FeatureSet) : ℝ :=
  c_used f + sigma_effective f * tanPhi f

/-- `FoS = tau_resisting / (tau_driving + 0.001)` as first computed,
before the flat-terrain override. -/
noncomputable def FoS_raw (f : FeatureSet) : ℝ :=
  tau_resisting f / (tau_driving f + 0.001)

open Classical in
/-- The failure probability: `0.01` when `slope < 1`, otherwise the
first-match table over `FoS`. -/
noncomputable def probability (f : FeatureSet) : ℝ :=
  if f.slope < 1 then 0.01
  else if FoS_raw f < 1.0 then 0.95
  else if FoS_raw f < 1.2 then 0.75
  else if FoS_raw f < 1.5 then 0.40
  else if FoS_raw f < 2.0 then 0.20
  else 0.05

open Classical in
/-- The reported `FoS`: forced to `20.0` when `slope < 1`. -/
noncomputable def FoS (f : FeatureSet) : ℝ :=
  if f.slope < 1 then 20.0 else FoS_raw f

open Classical in
/-- `level`: `"Low"` overridden to `"High"` if `probability > 0.7`,
`"Medium"` if `probability > 0.3`. -/
noncomputable def level (f : FeatureSet) : RiskLevel :=
  if probability f > 0.7 then RiskLevel.High
  else if probability f > 0.3 then RiskLevel.Medium
  else RiskLevel.Low

open Classical in
/-- The `sentences` array: texture rule, then slope rule, then rain rule,
each pushing at most one sentence, in source order. -/
noncomputable def sentences (f : FeatureSet) : List Sentence :=
  (if f.clay / 100 > 0.45 then [Sentence.clayRich (toFixed0 f.clay)]
   else if f.sand / 100 > 0.6 then [Sentence.sandy (toFixed0 f.sand)]
   else [Sentence.balancedMix]) ++
  (if f.slope > 35 then [Sentence.steepSlope f.slope]
   else if f.slope < 5 then [Sentence.flatLand f.slope]
   else []) ++
  (if f.rain > 400 then [Sentence.criticalRain]
   else if f.rain > 100 then [Sentence.moderateRain]
   else [])

open Classical in
/-- The engine `calculateLandslideRisk`, assembled from the definitions
above exactly as in the source: water override, then snow/ice override,
then the normal-physics result record. -/
noncomputable def calculateLandslideRisk (f : FeatureSet) : PredictionResult :=
  if isSeaOrWater f then
    { level := RiskLevel.Safe
      reason := [Sentence.waterBody]
      details :=
        { FoS := 100, cohesion_base := 0, friction_base := 0
          cohesion_effective := 0, friction_effective := 0
          shear_strength := 0, shear_stress := 0 } }
  else if isSnow f then
    { level := if f.slope > 30 then RiskLevel.High else RiskLevel.Medium
      reason := [Sentence.snowIce]
      details :=
        { FoS := if f.slope > 30 then 0.9 else 1.5
          cohesion_base := 50, friction_base := 10
          cohesion_effective := 50, friction_effective := 10
          shear_strength := 0, shear_stress := 0 } }
  else
    { level := level f
      reason := sentences f
      details :=
        { FoS := FoS f
          cohesion_base := toFixed2 (c f)
          friction_base := toFixed2 (phi f)
          cohesion_effective := toFixed2 (c_used f)
          friction_effective := toFixed2 (phi_used f)
          shear_strength := tau_resisting f
          shear_stress := tau_driving f } }

open Classical in
/-- The silt-derivation policy of `fetchSoil`:
`silt = 100 - clay - sand; if (silt < 0) silt = 0`. -/
noncomputable def siltOf (clayPct sandPct : ℝ) : ℝ :=
  if 100 - clayPct - sandPct < 0 then 0 else 100 - clayPct - sandPct

/-! ### Branch-reduction lemmas -/

lemma calc_water_eq (f : FeatureSet) (h : isSeaOrWater f) :
    calculateLandslideRisk f =
      ⟨RiskLevel.Safe, [Sentence.waterBody], ⟨100, 0, 0, 0, 0, 0, 0⟩⟩ := by
  unfold calculateLandslideRisk
  rw [if_pos h]

open Classical in
lemma calc_snow_eq (f : FeatureSet) (hw : ¬ isSeaOrWater f) (hs : isSnow f) :
    calculateLandslideRisk f =
      ⟨if f.slope > 30 then RiskLevel.High else RiskLevel.Medium,
       [Sentence.snowIce],
       ⟨if f.slope > 30 then 0.9 else 1.5, 50, 10, 50, 10, 0, 0⟩⟩ := by
  unfold calculateLandslideRisk
  rw [if_neg hw, if_pos hs]

lemma calc_normal_eq (f : FeatureSet) (hw : ¬ isSeaOrWater f) (hs : ¬ isSnow f) :
    calculateLandslideRisk f =
      ⟨level f, sentences f,
       ⟨FoS f, toFixed2 (c f), toFixed2 (phi f), toFixed2 (c_used f),
        toFixed2 (phi_used f), tau_resisting f, tau_driving f⟩⟩ := by
  unfold calculateLandslideRisk
  rw [if_neg hw, if_neg hs]

/-! ### Concrete inputs used by witnesses and counterexamples -/

/-- A water-body input (`isWater = true`). -/
noncomputable def exWater : FeatureSet :=
  { rain := 0, slope := 0, clay := 0, sand := 0, silt := 0, bulk_density := 0,
    elevation := 0, temp := 25, code := 0, isWater := true }

/-- Snow code 71 on a 40° slope. -/
noncomputable def exSnowSteep : FeatureSet :=
  { rain := 0, slope := 40, clay := 30, sand := 30, silt := 40,
    bulk_density := 130, elevation := 100, temp := 5, code := 71,
    isWater := false }

/-- Snow code 71 on a 10° slope. -/
noncomputable def exSnowMild : FeatureSet :=
  { rain := 0, slope := 10, clay := 30, sand := 30, silt := 40,
    bulk_density := 130, elevation := 100, temp := 5, code := 71,
    isWater := false }

/-- A normal-physics input with a near-flat 0.7° slope. -/
noncomputable def exFlat : FeatureSet :=
  { rain := 0, slope := 0.7, clay := 30, sand := 30, silt := 40,
    bulk_density := 130, elevation := 100, temp := 20, code := 0,
    isWater := false }

/-- A normal-physics input with a 10° slope. -/
noncomputable def exNormal : FeatureSet :=
  { rain := 0, slope := 10, clay := 30, sand := 30, silt := 40,
    bulk_density := 130, elevation := 100, temp := 20, code := 0,
    isWater := false }

/-- A normal-physics input whose baseline cohesion `0.0035` has more than
two decimal places. -/
noncomputable def exTiny : FeatureSet :=
  { rain := 0, slope := 10, clay := 0.01, sand := 0, silt := 0,
    bulk_density := 130, elevation := 100, temp := 20, code := 0,
    isWater := false }

/-- A soil record built per the silt-derivation policy from
`clay = 60, sand = 60` (the floor clips silt to 0). -/
noncomputable def exClipped : FeatureSet :=
  { rain := 0, slope := 10, clay := 60, sand := 60, silt := siltOf 60 60,
    bulk_density := 130, elevation := 100, temp := 20, code := 0,
    isWater := false }

/-- A soil record built per the silt-derivation policy from
`clay = 33, sand = 33`. -/
noncomputable def exBalanced : FeatureSet :=
  { rain := 0, slope := 10, clay := 33, sand := 33, silt := siltOf 33 33,
    bulk_density := 130, elevation := 100, temp := 20, code := 0,
    isWater := false }

/-! ### Claim C2 -/

/-- Claim C2: whenever the water override fires (`isWater`, or elevation in
[-5, 5] with |slope| < 0.5 and bulk_density < 20), `evaluate` returns
`Safe`, `FoS = 100`, and all six strength/shear fields equal to 0,
bypassing the soil/stability computation. -/
theorem C2_water_override (f : FeatureSet) (h : isSeaOrWater f) :
    (calculateLandslideRisk f).level = RiskLevel.Safe ∧
    (calculateLandslideRisk f).details.FoS = 100 ∧
    (calculateLandslideRisk f).details.cohesion_base = 0 ∧
    (calculateLandslideRisk f).details.friction_base = 0 ∧
    (calculateLandslideRisk f).details.cohesion_effective = 0 ∧
    (calculateLandslideRisk f).details.friction_effective = 0 ∧
    (calculateLandslideRisk f).details.shear_strength = 0 ∧
    (calculateLandslideRisk f).details.shear_stress = 0 := by
  rw [calc_water_eq f h]
  exact ⟨rfl, rfl, rfl, rfl, rfl, rfl, rfl, rfl⟩

theorem C2_water_override_witness :
    (calculateLandslideRisk exWater).level = RiskLevel.Safe ∧
    (calculateLandslideRisk exWater).details.FoS = 100 ∧
    (calculateLandslideRisk exWater).details.cohesion_base = 0 ∧
    (calculateLandslideRisk exWater).details.friction_base = 0 ∧
    (calculateLandslideRisk exWater).details.cohesion_effective = 0 ∧
    (calculateLandslideRisk exWater).details.friction_effective = 0 ∧
    (calculateLandslideRisk exWater).details.shear_strength = 0 ∧
    (calculateLandslideRisk exWater).details.shear_stress = 0 :=
  C2_water_override exWater (Or.inl rfl)

/-! ### Claim C3 -/

open Classical in
/-- Claim C3: when the water override does not fire and the snow/ice
override does (`code` in {71, 73, 75, 77, 85, 86} or `temp < -1`),
`evaluate` returns `High` with `FoS = 0.9` when `slope > 30`, else
`Medium` with `FoS = 1.5`, with the fixed strength constants 50/10 and
zero shear fields. -/
theorem C3_snow_override (f : FeatureSet) (hw : ¬ isSeaOrWater f)
    (hs : isSnow f) :
    (calculateLandslideRisk f).level =
      (if f.slope > 30 then RiskLevel.High else RiskLevel.Medium) ∧
    (calculateLandslideRisk f).details.FoS =
      (if f.slope > 30 then (0.9 : ℝ) else 1.5) ∧
    (calculateLandslideRisk f).details.cohesion_base = 50 ∧
    (calculateLandslideRisk f).details.friction_base = 10 ∧
    (calculateLandslideRisk f).details.cohesion_effective = 50 ∧
    (calculateLandslideRisk f).details.friction_effective = 10 ∧
    (calculateLandslideRisk f).details.shear_strength = 0 ∧
    (calculateLandslideRisk f).details.shear_stress = 0 := by
  rw [calc_snow_eq f hw hs]
  exact ⟨rfl, rfl, rfl, rfl, rfl, rfl, rfl, rfl⟩

theorem C3_snow_override_witness :
    (calculateLandslideRisk exSnowSteep).level = RiskLevel.High ∧
    (calculateLandslideRisk exSnowSteep).details.FoS = 0.9 ∧
    (calculateLandslideRisk exSnowMild).level = RiskLevel.Medium ∧
    (calculateLandslideRisk exSnowMild).details.FoS = 1.5 := by
  have ha := C3_snow_override exSnowSteep
    (by norm_num [isSeaOrWater, exSnowSteep])
    (by norm_num [isSnow, exSnowSteep])
  have hb := C3_snow_override exSnowMild
    (by norm_num [isSeaOrWater, exSnowMild])
    (by norm_num [isSnow, exSnowMild])
  refine ⟨?_, ?_, ?_, ?_⟩
  · rw [ha.1]; norm_num [exSnowSteep]
  · rw [ha.2.1]; norm_num [exSnowSteep]
  · rw [hb.1]; norm_num [exSnowMild]
  · rw [hb.2.1]; norm_num [exSnowMild]

/-! ### Claim C4 -/

open Classical in
/-- Claim C4: on the normal-physics path, `slope < 1` forces `FoS = 20.0`,
`probability = 0.01` and level `Low`; otherwise the probability comes from
the first-match table over the returned FoS, and the level is `High` when
`probability > 0.7`, `Medium` when `probability > 0.3`, else `Low`. -/
theorem C4_probability_level (f : FeatureSet) (hw : ¬ isSeaOrWater f)
    (hs : ¬ isSnow f) :
    (f.slope < 1 →
      (calculateLandslideRisk f).details.FoS = 20.0 ∧
      probability f = 0.01 ∧
      (calculateLandslideRisk f).level = RiskLevel.Low) ∧
    (¬ f.slope < 1 →
      probability f =
        (if (calculateLandslideRisk f).details.FoS < 1.0 then 0.95
         else if (calculateLandslideRisk f).details.FoS < 1.2 then 0.75
         else if (calculateLandslideRisk f).details.FoS < 1.5 then 0.40
         else if (calculateLandslideRisk f).details.FoS < 2.0 then 0.20
         else 0.05)) ∧
    (calculateLandslideRisk f).level =
      (if probability f > 0.7 then RiskLevel.High
       else if probability f > 0.3 then RiskLevel.Medium
       else RiskLevel.Low) := by
  rw [calc_normal_eq f hw hs]
  refine ⟨fun h => ?_, fun h => ?_, ?_⟩
  · have hp : probability f = 0.01 := by unfold probability; rw [if_pos h]
    refine ⟨?_, hp, ?_⟩
    · show FoS f = 20.0
      unfold FoS; rw [if_pos h]
    · show level f = RiskLevel.Low
      unfold level; rw [hp]
      norm_num
  · show probability f = _
    have hFoS : FoS f = FoS_raw f := by unfold FoS; rw [if_neg h]
    show probability f =
      (if FoS f < 1.0 then 0.95 else if FoS f < 1.2 then 0.75
       else if FoS f < 1.5 then 0.40 else if FoS f < 2.0 then 0.20 else 0.05)
    rw [hFoS]
    unfold probability
    rw [if_neg h]
  · show level f = _
    unfold level
    rfl

theorem C4_probability_level_witness :
    (calculateLandslideRisk exFlat).details.FoS = 20.0 ∧
    probability exFlat = 0.01 ∧
    (calculateLandslideRisk exFlat).level = RiskLevel.Low :=
  (C4_probability_level exFlat (by norm_num [isSeaOrWater, exFlat])
    (by norm_num [isSnow, exFlat])).1 (by norm_num [exFlat])

/-! ### Claim C9 -/

/-- Claim C9 counterexample: `clay = 60` and `sand = 60` are both valid
percentages, the silt policy clips `100 - 60 - 60` to `0`, and the derived
fractions sum to `1.2 > 1`. -/
theorem C9_fractions_counterexample :
    exClipped.silt = siltOf exClipped.clay exClipped.sand ∧
    ¬ (exClipped.clay / 100 + exClipped.sand / 100 + exClipped.silt / 100 ≤ 1) := by
  constructor
  · rfl
  · norm_num [exClipped, siltOf]

/-- Claim C9 as amended: for a FeatureSet whose silt was derived by the
documented policy (`silt = 100 - clay - sand`, floored at 0), the
fractions `fClay + fSand + fSilt` sum to at most 1 provided
`clay + sand ≤ 100` (when `clay + sand > 100` the floor fires and the sum
exceeds 1). -/
theorem C9_fractions_le_one (f : FeatureSet)
    (hpolicy : f.silt = siltOf f.clay f.sand)
    (hsum : f.clay + f.sand ≤ 100) :
    f.clay / 100 + f.sand / 100 + f.silt / 100 ≤ 1 := by
  rw [hpolicy]
  unfold siltOf
  split_ifs with h <;> linarith

theorem C9_fractions_le_one_witness :
    exBalanced.clay / 100 + exBalanced.sand / 100 + exBalanced.silt / 100 ≤ 1 :=
  C9_fractions_le_one exBalanced rfl (by norm_num [exBalanced])

/-! ### Claim C10 -/

/-- Claim C10: `evaluate` returns `Safe` exactly when the water override
fires; on every other path the level is `Low`, `Medium` or `High`. -/
theorem C10_safe_iff_water (f : FeatureSet) :
    ((calculateLandslideRisk f).level = RiskLevel.Safe ↔ isSeaOrWater f) ∧
    (¬ isSeaOrWater f →
      (calculateLandslideRisk f).level = RiskLevel.Low ∨
      (calculateLandslideRisk f).level = RiskLevel.Medium ∨
      (calculateLandslideRisk f).level = RiskLevel.High) := by
  by_cases hw : isSeaOrWater f
  · rw [calc_water_eq f hw]
    exact ⟨⟨fun _ => hw, fun _ => rfl⟩, fun h => absurd hw h⟩
  · have hlv : (calculateLandslideRisk f).level = RiskLevel.Low ∨
        (calculateLandslideRisk f).level = RiskLevel.Medium ∨
        (calculateLandslideRisk f).level = RiskLevel.High := by
      by_cases hs : isSnow f
      · rw [calc_snow_eq f hw hs]
        dsimp only
        split_ifs <;> simp
      · rw [calc_normal_eq f hw hs]
        show level f = _ ∨ level f = _ ∨ level f = _
        unfold level
        split_ifs <;> simp
    refine ⟨⟨fun hSafe => ?_, fun h => absurd h hw⟩, fun _ => hlv⟩
    rcases hlv with h | h | h <;> rw [h] at hSafe <;> exact absurd hSafe (by simp)

theorem C10_safe_iff_water_witness :
    (calculateLandslideRisk exWater).level = RiskLevel.Safe ∧
    ((calculateLandslideRisk exNormal).level = RiskLevel.Low ∨
     (calculateLandslideRisk exNormal).level = RiskLevel.Medium ∨
     (calculateLandslideRisk exNormal).level = RiskLevel.High) :=
  ⟨(C10_safe_iff_water exWater).1.mpr (Or.inl rfl),
   (C10_safe_iff_water exNormal).2 (by norm_num [isSeaOrWater, exNormal])⟩

/-! ### Claim C5 -/

/-- Claim C5 counterexample: for `clay = 0.01, sand = 0, silt = 0` the
baseline cohesion is `0.0035`, but the result reports
`Number(c.toFixed(2)) = 0`, so the reported `cohesion_base` is not the
texture blend `35·fClay + 10·fSilt + 1·fSand`. -/
theorem C5_blend_counterexample :
    (calculateLandslideRisk exTiny).details.cohesion_base ≠
      35 * (exTiny.clay / 100) + 10 * (exTiny.silt / 100) +
        1 * (exTiny.sand / 100) := by
  rw [calc_normal_eq exTiny (by norm_num [isSeaOrWater, exTiny])
    (by norm_num [isSnow, exTiny])]
  show toFixed2 (c exTiny) ≠ _
  have hc : c exTiny = 0.0035 := by norm_num [c, exTiny]
  have hfloor : (⌊(0.0035 : ℝ) * 100 + 1 / 2⌋ : ℤ) = 0 :=
    Int.floor_eq_iff.mpr (by norm_num)
  rw [hc]
  unfold toFixed2
  rw [hfloor]
  norm_num [exTiny]

/-- Claim C5 as amended: on the normal-physics path the reported baseline
strengths are the texture blends rounded half-up to two decimal places:
`cohesion_base = round2(35·fClay + 10·fSilt + 1·fSand)` and
`friction_base = round2(34·fSand + 28·fSilt + 18·fClay)`. -/
theorem C5_blend_rounded (f : FeatureSet) (hw : ¬ isSeaOrWater f)
    (hs : ¬ isSnow f) :
    (calculateLandslideRisk f).details.cohesion_base =
      toFixed2 (35 * (f.clay / 100) + 10 * (f.silt / 100) +
        1 * (f.sand / 100)) ∧
    (calculateLandslideRisk f).details.friction_base =
      toFixed2 (34 * (f.sand / 100) + 28 * (f.silt / 100) +
        18 * (f.clay / 100)) := by
  rw [calc_normal_eq f hw hs]
  constructor
  · show toFixed2 (c f) = _
    rw [show c f = 35 * (f.clay / 100) + 10 * (f.silt / 100) +
        1 * (f.sand / 100) by unfold c; ring]
  · show toFixed2 (phi f) = _
    rw [show phi f = 34 * (f.sand / 100) + 28 * (f.silt / 100) +
        18 * (f.clay / 100) by unfold phi; ring]

theorem C5_blend_rounded_witness :
    (calculateLandslideRisk exTiny).details.cohesion_base =
      toFixed2 (35 * (exTiny.clay / 100) + 10 * (exTiny.silt / 100) +
        1 * (exTiny.sand / 100)) ∧
    (calculateLandslideRisk exTiny).details.friction_base =
      toFixed2 (34 * (exTiny.sand / 100) + 28 * (exTiny.silt / 100) +
        18 * (exTiny.clay / 100)) :=
  C5_blend_rounded exTiny (by norm_num [isSeaOrWater, exTiny])
    (by norm_num [isSnow, exTiny])

/-! ### Claim C8 -/

open Classical in
/-- Claim C8: on the normal-physics path the reason is the ordered
concatenation texture ++ slope ++ rain, where exactly one texture sentence
fires (clay-rich when `fClay > 0.45`, else sandy when `fSand > 0.6`, else
balanced-mix), at most one slope sentence fires (steep when `slope > 35`,
flat when `slope < 5`), and at most one rain sentence fires (critical when
`rain > 400`, else moderate when `rain > 100`). -/
theorem C8_narrative_order (f : FeatureSet) (hw : ¬ isSeaOrWater f)
    (hs : ¬ isSnow f) :
    (calculateLandslideRisk f).reason =
      (if f.clay / 100 > 0.45 then [Sentence.clayRich (toFixed0 f.clay)]
       else if f.sand / 100 > 0.6 then [Sentence.sandy (toFixed0 f.sand)]
       else [Sentence.balancedMix]) ++
      (if f.slope > 35 then [Sentence.steepSlope f.slope]
       else if f.slope < 5 then [Sentence.flatLand f.slope]
       else []) ++
      (if f.rain > 400 then [Sentence.criticalRain]
       else if f.rain > 100 then [Sentence.moderateRain]
       else []) ∧
    (if f.clay / 100 > 0.45 then [Sentence.clayRich (toFixed0 f.clay)]
     else if f.sand / 100 > 0.6 then [Sentence.sandy (toFixed0 f.sand)]
     else [Sentence.balancedMix]).length = 1 ∧
    (if f.slope > 35 then [Sentence.steepSlope f.slope]
     else if f.slope < 5 then [Sentence.flatLand f.slope]
     else []).length ≤ 1 ∧
    (if f.rain > 400 then [Sentence.criticalRain]
     else if f.rain > 100 then [Sentence.moderateRain]
     else []).length ≤ 1 := by
  rw [calc_normal_eq f hw hs]
  refine ⟨rfl, ?_, ?_, ?_⟩ <;> split_ifs <;> simp

theorem C8_narrative_order_witness :
    (calculateLandslideRisk exFlat).reason =
      (if exFlat.clay / 100 > 0.45 then [Sentence.clayRich (toFixed0 exFlat.clay)]
       else if exFlat.sand / 100 > 0.6 then [Sentence.sandy (toFixed0 exFlat.sand)]
       else [Sentence.balancedMix]) ++
      (if exFlat.slope > 35 then [Sentence.steepSlope exFlat.slope]
       else if exFlat.slope < 5 then [Sentence.flatLand exFlat.slope]
       else []) ++
      (if exFlat.rain > 400 then [Sentence.criticalRain]
       else if exFlat.rain > 100 then [Sentence.moderateRain]
       else []) ∧
    (if exFlat.clay / 100 > 0.45 then [Sentence.clayRich (toFixed0 exFlat.clay)]
     else if exFlat.sand / 100 > 0.6 then [Sentence.sandy (toFixed0 exFlat.sand)]
     else [Sentence.balancedMix]).length = 1 ∧
    (if exFlat.slope > 35 then [Sentence.steepSlope exFlat.slope]
     else if exFlat.slope < 5 then [Sentence.flatLand exFlat.slope]
     else []).length ≤ 1 ∧
    (if exFlat.rain > 400 then [Sentence.criticalRain]
     else if exFlat.rain > 100 then [Sentence.moderateRain]
     else []).length ≤ 1 :=
  C8_narrative_order exFlat (by norm_num [isSeaOrWater, exFlat])
    (by norm_num [isSnow, exFlat])

/-! ### Claim C1 -/

open Classical in
/-- Modelled from the claim's formula (the specification side of the
refinement): the normal-path factor of safety written out from the raw
features exactly as claim C1 states it, with `gamma = (bulk_density/100)·9.81`,
`z = 3.0`, `beta = slope·π/180`, `sigma = gamma·z·cos²(beta)`, the
discrete-threshold saturation index and pore pressure, the baseline
strengths `c = 35·fClay + 10·fSilt + 1·fSand` and
`phi = 34·fSand + 28·fSilt + 18·fClay`, and
`FoS = (c_used + max(0, sigma - u)·tan(phi_used·π/180)) /
(gamma·z·sin(beta)·cos(beta) + 0.001)`. -/
noncomputable def claimFoS (f : FeatureSet) : ℝ :=
  let satIdx : ℝ :=
    if f.rain > 800 then 1.0
    else if f.rain > 400 then 0.7
    else if f.rain > 100 then 0.4
    else 0.1
  let gammaS : ℝ := f.bulk_density / 100 * 9.81
  let zS : ℝ := 3.0
  let betaS : ℝ := f.slope * (Real.pi / 180)
  let sigmaS : ℝ := gammaS * zS * Real.cos betaS ^ 2
  let uS : ℝ :=
    if f.rain > 800 then 0.5 * sigmaS
    else if f.rain > 400 then 0.3 * sigmaS
    else if f.rain > 100 then 0.1 * sigmaS
    else 0
  let cS : ℝ := 35 * (f.clay / 100) + 10 * (f.silt / 100) + 1 * (f.sand / 100)
  let phiS : ℝ := 34 * (f.sand / 100) + 28 * (f.silt / 100) + 18 * (f.clay / 100)
  let cUsedS : ℝ := max 0 (cS * (1 - 0.5 * satIdx))
  let phiUsedS : ℝ := max 5 (phiS * (1 - 0.3 * satIdx))
  (cUsedS + max 0 (sigmaS - uS) * Real.tan (phiUsedS * (Real.pi / 180))) /
    (gammaS * zS * Real.sin betaS * Real.cos betaS + 0.001)

/-- Claim C1: on the normal-physics path with `slope ≥ 1`, the returned
`details.FoS` is exactly the infinite-slope formula of the claim. -/
theorem C1_normal_fos (f : FeatureSet) (hw : ¬ isSeaOrWater f)
    (hs : ¬ isSnow f) (h1 : 1 ≤ f.slope) :
    (calculateLandslideRisk f).details.FoS = claimFoS f := by
  rw [calc_normal_eq f hw hs]
  show FoS f = claimFoS f
  unfold FoS
  rw [if_neg (not_lt.mpr h1)]
  unfold FoS_raw tau_resisting tau_driving sigma_effective tanPhi c_used
    phi_used c_eff phi_eff c phi u sigma gamma beta z saturationIndex
  simp only [claimFoS]
  split_ifs <;> ring_nf

theorem C1_normal_fos_witness :
    (calculateLandslideRisk exNormal).details.FoS = claimFoS exNormal :=
  C1_normal_fos exNormal (by norm_num [isSeaOrWater, exNormal])
    (by norm_num [isSnow, exNormal]) (by norm_num [exNormal])

/-! ### Claim C6 -/

/-- The same feature record with the rainfall replaced (the rainfall
override of the route handler only rewrites `rain` before the engine
runs). -/
noncomputable def withRain (f : FeatureSet) (r : ℝ) : FeatureSet :=
  { f with rain := r }

lemma saturationIndex_mono {r1 r2 : ℝ} (h : r1 ≤ r2) :
    saturationIndex r1 ≤ saturationIndex r2 := by
  unfold saturationIndex
  split_ifs <;> linarith

lemma saturationIndex_bounds (r : ℝ) :
    0.1 ≤ saturationIndex r ∧ saturationIndex r ≤ 1 := by
  unfold saturationIndex
  split_ifs <;> norm_num

lemma u_mono (f : FeatureSet) {r1 r2 : ℝ} (h : r1 ≤ r2)
    (hσ : 0 ≤ sigma f) : u (withRain f r1) ≤ u (withRain f r2) := by
  show (if r1 > 800 then sigma f * 0.5 else if r1 > 400 then sigma f * 0.3
        else if r1 > 100 then sigma f * 0.1 else 0) ≤
       (if r2 > 800 then sigma f * 0.5 else if r2 > 400 then sigma f * 0.3
        else if r2 > 100 then sigma f * 0.1 else 0)
  split_ifs <;> linarith

/-- Core anti-monotonicity of the raw factor of safety in rainfall, for
features within the documented ranges (texture percentages in [0, 100],
nonnegative bulk density, slope in [0, 90)). -/
lemma FoS_raw_anti_rain (f : FeatureSet) {r1 r2 : ℝ} (hr : r1 ≤ r2)
    (hclay0 : 0 ≤ f.clay) (hclay1 : f.clay ≤ 100)
    (hsand0 : 0 ≤ f.sand) (hsand1 : f.sand ≤ 100)
    (hsilt0 : 0 ≤ f.silt) (hsilt1 : f.silt ≤ 100)
    (hbd : 0 ≤ f.bulk_density)
    (hsl0 : 0 ≤ f.slope) (hsl1 : f.slope < 90) :
    FoS_raw (withRain f r2) ≤ FoS_raw (withRain f r1) := by
  have hc : 0 ≤ c f := by unfold c; linarith
  have hphi0 : 0 ≤ phi f := by unfold phi; linarith
  have hphi80 : phi f ≤ 80 := by unfold phi; linarith
  have hγ : 0 ≤ gamma f := by unfold gamma; linarith
  have hπ := Real.pi_pos
  have hβ0 : 0 ≤ beta f := by
    unfold beta
    exact mul_nonneg hsl0 (by positivity)
  have hβ2 : beta f < Real.pi / 2 := by
    unfold beta
    nlinarith
  have hcos : 0 < Real.cos (beta f) :=
    Real.cos_pos_of_mem_Ioo ⟨by linarith, hβ2⟩
  have hsin : 0 ≤ Real.sin (beta f) :=
    Real.sin_nonneg_of_nonneg_of_le_pi hβ0 (by linarith)
  have hσ : 0 ≤ sigma f := by
    unfold sigma z
    exact mul_nonneg (mul_nonneg hγ (by norm_num)) (sq_nonneg _)
  have hτ : 0 ≤ tau_driving f := by
    unfold tau_driving z
    exact mul_nonneg (mul_nonneg (mul_nonneg hγ (by norm_num)) hsin) hcos.le
  have hD : (0 : ℝ) < tau_driving f + 0.001 := by linarith
  have hsm : saturationIndex r1 ≤ saturationIndex r2 := saturationIndex_mono hr
  have hsb1 := saturationIndex_bounds r1
  have hsb2 := saturationIndex_bounds r2
  have hcu : c_used (withRain f r2) ≤ c_used (withRain f r1) := by
    show max 0 (c f * (1 - 0.5 * saturationIndex r2)) ≤
         max 0 (c f * (1 - 0.5 * saturationIndex r1))
    exact max_le_max le_rfl (mul_le_mul_of_nonneg_left (by linarith) hc)
  have hpu_ge : ∀ r : ℝ, (5 : ℝ) ≤ phi_used (withRain f r) := by
    intro r
    show (5 : ℝ) ≤ max 5 (phi f * (1 - 0.3 * saturationIndex r))
    exact le_max_left _ _
  have hpu_le : ∀ r : ℝ, phi_used (withRain f r) ≤ 80 := by
    intro r
    show max 5 (phi f * (1 - 0.3 * saturationIndex r)) ≤ 80
    apply max_le (by norm_num)
    have h1 : phi f * (1 - 0.3 * saturationIndex r) ≤ phi f * 1 :=
      mul_le_mul_of_nonneg_left
        (by have := (saturationIndex_bounds r).1; linarith) hphi0
    linarith
  have hpu_anti : phi_used (withRain f r2) ≤ phi_used (withRain f r1) := by
    show max 5 (phi f * (1 - 0.3 * saturationIndex r2)) ≤
         max 5 (phi f * (1 - 0.3 * saturationIndex r1))
    exact max_le_max le_rfl (mul_le_mul_of_nonneg_left (by linarith) hphi0)
  have hang : ∀ r : ℝ, phi_used (withRain f r) * (Real.pi / 180) ∈
      Set.Ioo (-(Real.pi / 2)) (Real.pi / 2) := by
    intro r
    constructor
    · have h5 := hpu_ge r
      nlinarith
    · have h80 := hpu_le r
      nlinarith
  have htan_anti : tanPhi (withRain f r2) ≤ tanPhi (withRain f r1) := by
    show Real.tan (phi_used (withRain f r2) * (Real.pi / 180)) ≤
         Real.tan (phi_used (withRain f r1) * (Real.pi / 180))
    exact Real.strictMonoOn_tan.monotoneOn (hang r2) (hang r1)
      (mul_le_mul_of_nonneg_right hpu_anti (by positivity))
  have htan_nonneg : 0 ≤ tanPhi (withRain f r2) := by
    show 0 ≤ Real.tan (phi_used (withRain f r2) * (Real.pi / 180))
    apply Real.tan_nonneg_of_nonneg_of_le_pi_div_two
    · have := hpu_ge r2
      nlinarith
    · exact (hang r2).2.le
  have hσe_anti : sigma_effective (withRain f r2) ≤
      sigma_effective (withRain f r1) := by
    show max 0 (sigma f - u (withRain f r2)) ≤
         max 0 (sigma f - u (withRain f r1))
    have := u_mono f hr hσ
    exact max_le_max le_rfl (by linarith)
  have hσe_nonneg : 0 ≤ sigma_effective (withRain f r1) := by
    show (0 : ℝ) ≤ max 0 (sigma f - u (withRain f r1))
    exact le_max_left _ _
  have hnum : tau_resisting (withRain f r2) ≤ tau_resisting (withRain f r1) := by
    show c_used (withRain f r2) +
        sigma_effective (withRain f r2) * tanPhi (withRain f r2) ≤
      c_used (withRain f r1) +
        sigma_effective (withRain f r1) * tanPhi (withRain f r1)
    have := mul_le_mul hσe_anti htan_anti htan_nonneg hσe_nonneg
    linarith
  show tau_resisting (withRain f r2) / (tau_driving f + 0.001) ≤
       tau_resisting (withRain f r1) / (tau_driving f + 0.001)
  exact (div_le_div_iff_of_pos_right hD).mpr hnum

lemma FoS_anti_rain (f : FeatureSet) {r1 r2 : ℝ} (hr : r1 ≤ r2)
    (hclay0 : 0 ≤ f.clay) (hclay1 : f.clay ≤ 100)
    (hsand0 : 0 ≤ f.sand) (hsand1 : f.sand ≤ 100)
    (hsilt0 : 0 ≤ f.silt) (hsilt1 : f.silt ≤ 100)
    (hbd : 0 ≤ f.bulk_density)
    (hsl0 : 0 ≤ f.slope) (hsl1 : f.slope < 90) :
    FoS (withRain f r2) ≤ FoS (withRain f r1) := by
  show (if f.slope < 1 then (20.0 : ℝ) else FoS_raw (withRain f r2)) ≤
       (if f.slope < 1 then (20.0 : ℝ) else FoS_raw (withRain f r1))
  by_cases h : f.slope < 1
  · rw [if_pos h, if_pos h]
  · rw [if_neg h, if_neg h]
    exact FoS_raw_anti_rain f hr hclay0 hclay1 hsand0 hsand1 hsilt0 hsilt1
      hbd hsl0 hsl1

/-- Claim C6: on the normal-physics path, with the other features fixed
within their documented ranges, raising the rainfall through
50 → 150 → 450 → 850 never increases the returned FoS. -/
theorem C6_fos_rain_antitone (f : FeatureSet)
    (hw : ¬ isSeaOrWater f) (hs : ¬ isSnow f)
    (hclay0 : 0 ≤ f.clay) (hclay1 : f.clay ≤ 100)
    (hsand0 : 0 ≤ f.sand) (hsand1 : f.sand ≤ 100)
    (hsilt0 : 0 ≤ f.silt) (hsilt1 : f.silt ≤ 100)
    (hbd : 0 ≤ f.bulk_density)
    (hsl0 : 0 ≤ f.slope) (hsl1 : f.slope < 90) :
    (calculateLandslideRisk (withRain f 150)).details.FoS ≤
      (calculateLandslideRisk (withRain f 50)).details.FoS ∧
    (calculateLandslideRisk (withRain f 450)).details.FoS ≤
      (calculateLandslideRisk (withRain f 150)).details.FoS ∧
    (calculateLandslideRisk (withRain f 850)).details.FoS ≤
      (calculateLandslideRisk (withRain f 450)).details.FoS := by
  have hw' : ∀ r : ℝ, ¬ isSeaOrWater (withRain f r) := fun r => hw
  have hs' : ∀ r : ℝ, ¬ isSnow (withRain f r) := fun r => hs
  have e : ∀ r : ℝ, (calculateLandslideRisk (withRain f r)).details.FoS =
      FoS (withRain f r) := by
    intro r
    rw [calc_normal_eq _ (hw' r) (hs' r)]
  rw [e 50, e 150, e 450, e 850]
  exact ⟨FoS_anti_rain f (by norm_num) hclay0 hclay1 hsand0 hsand1 hsilt0
      hsilt1 hbd hsl0 hsl1,
    FoS_anti_rain f (by norm_num) hclay0 hclay1 hsand0 hsand1 hsilt0
      hsilt1 hbd hsl0 hsl1,
    FoS_anti_rain f (by norm_num) hclay0 hclay1 hsand0 hsand1 hsilt0
      hsilt1 hbd hsl0 hsl1⟩

theorem C6_fos_rain_antitone_witness :
    (calculateLandslideRisk (withRain exNormal 150)).details.FoS ≤
      (calculateLandslideRisk (withRain exNormal 50)).details.FoS ∧
    (calculateLandslideRisk (withRain exNormal 450)).details.FoS ≤
      (calculateLandslideRisk (withRain exNormal 150)).details.FoS ∧
    (calculateLandslideRisk (withRain exNormal 850)).details.FoS ≤
      (calculateLandslideRisk (withRain exNormal 450)).details.FoS :=
  C6_fos_rain_antitone exNormal (by norm_num [isSeaOrWater, exNormal])
    (by norm_num [isSnow, exNormal]) (by norm_num [exNormal])
    (by norm_num [exNormal]) (by norm_num [exNormal]) (by norm_num [exNormal])
    (by norm_num [exNormal]) (by norm_num [exNormal]) (by norm_num [exNormal])
    (by norm_num [exNormal]) (by norm_num [exNormal])

/-! ### Claim C7 -/

/-- The concrete scenario of claim C7. -/
noncomputable def scen7 : FeatureSet :=
  { rain := 0, slope := 45, clay := 60, sand := 20, silt := 20,
    bulk_density := 130, elevation := 500, temp := 20, code := 0,
    isWater := false }

lemma scen7_not_water : ¬ isSeaOrWater scen7 := by
  norm_num [isSeaOrWater, scen7]

lemma scen7_not_snow : ¬ isSnow scen7 := by
  norm_num [isSnow, scen7]

lemma scen7_c : c scen7 = 23.2 := by norm_num [c, scen7]

lemma scen7_phi : phi scen7 = 23.2 := by norm_num [phi, scen7]

lemma scen7_sat : saturationIndex scen7.rain = 0.1 := by
  norm_num [saturationIndex, scen7]

lemma scen7_c_used : c_used scen7 = 22.04 := by
  have he : c_eff scen7 = 22.04 := by
    unfold c_eff
    rw [scen7_c, scen7_sat]
    norm_num
  unfold c_used
  rw [he]
  exact max_eq_right (by norm_num)

lemma scen7_phi_used : phi_used scen7 = 22.504 := by
  have he : phi_eff scen7 = 22.504 := by
    unfold phi_eff
    rw [scen7_phi, scen7_sat]
    norm_num
  unfold phi_used
  rw [he]
  exact max_eq_right (by norm_num)

lemma scen7_beta : beta scen7 = Real.pi / 4 := by
  show (45 : ℝ) * (Real.pi / 180) = Real.pi / 4
  ring

lemma scen7_sigma : sigma scen7 = 19.1295 := by
  have h2 : (Real.sqrt 2 / 2) ^ 2 = 1 / 2 := by
    rw [div_pow, Real.sq_sqrt] <;> norm_num
  unfold sigma gamma z
  rw [scen7_beta, Real.cos_pi_div_four, h2]
  norm_num [scen7]

lemma scen7_tau_driving : tau_driving scen7 = 19.1295 := by
  have hss : Real.sqrt 2 * Real.sqrt 2 = 2 :=
    Real.mul_self_sqrt (by norm_num)
  unfold tau_driving gamma z
  rw [scen7_beta, Real.sin_pi_div_four, Real.cos_pi_div_four]
  have : (scen7.bulk_density / 100 * 9.81) = 12.753 := by norm_num [scen7]
  rw [this]
  nlinarith [hss]

lemma scen7_u : u scen7 = 0 := by
  norm_num [u, scen7]

lemma scen7_sigma_effective : sigma_effective scen7 = 19.1295 := by
  unfold sigma_effective
  rw [scen7_sigma, scen7_u]
  norm_num

lemma scen7_tan_bounds : 0.392 < tanPhi scen7 ∧ tanPhi scen7 < 0.58 := by
  have hπl := Real.pi_gt_d6
  have hπu := Real.pi_lt_d6
  have hπ := Real.pi_pos
  have hθ : phi_used scen7 * (Real.pi / 180) = 22.504 * (Real.pi / 180) := by
    rw [scen7_phi_used]
  have hθpos : 0 < 22.504 * (Real.pi / 180) := by positivity
  have hθlt : 22.504 * (Real.pi / 180) < Real.pi / 2 := by linarith
  constructor
  · have hlt := Real.lt_tan hθpos hθlt
    show 0.392 < Real.tan (phi_used scen7 * (Real.pi / 180))
    rw [hθ]
    linarith
  · show Real.tan (phi_used scen7 * (Real.pi / 180)) < 0.58
    rw [hθ]
    have hsin : Real.sin (22.504 * (Real.pi / 180)) < 0.3928 := by
      have h1 := Real.sin_lt hθpos
      linarith
    have hcos : (0.92 : ℝ) < Real.cos (22.504 * (Real.pi / 180)) := by
      have h1 := Real.one_sub_sq_div_two_le_cos
        (x := 22.504 * (Real.pi / 180))
      have hub : 22.504 * (Real.pi / 180) < 0.3928 := by linarith
      nlinarith
    rw [Real.tan_eq_sin_div_cos, div_lt_iff₀ (by linarith)]
    nlinarith

lemma scen7_FoS_raw_eq :
    FoS_raw scen7 = (22.04 + 19.1295 * tanPhi scen7) / 19.1305 := by
  unfold FoS_raw tau_resisting
  rw [scen7_c_used, scen7_sigma_effective, scen7_tau_driving]
  norm_num

lemma scen7_FoS_raw_bounds : 1.5 ≤ FoS_raw scen7 ∧ FoS_raw scen7 < 2 := by
  obtain ⟨hl, hu⟩ := scen7_tan_bounds
  rw [scen7_FoS_raw_eq]
  constructor
  · rw [le_div_iff₀ (by norm_num : (0 : ℝ) < 19.1305)]
    linarith
  · rw [div_lt_iff₀ (by norm_num : (0 : ℝ) < 19.1305)]
    linarith

lemma scen7_FoS_eq_raw : FoS scen7 = FoS_raw scen7 := by
  unfold FoS
  rw [if_neg (by norm_num [scen7] : ¬ scen7.slope < 1)]

lemma scen7_probability : probability scen7 = 0.20 := by
  obtain ⟨hl, hu⟩ := scen7_FoS_raw_bounds
  unfold probability
  rw [if_neg (by norm_num [scen7] : ¬ scen7.slope < 1),
    if_neg (by linarith : ¬ FoS_raw scen7 < 1.0),
    if_neg (by linarith : ¬ FoS_raw scen7 < 1.2),
    if_neg (by linarith : ¬ FoS_raw scen7 < 1.5),
    if_pos (by linarith : FoS_raw scen7 < 2.0)]

lemma scen7_level : level scen7 = RiskLevel.Low := by
  unfold level
  rw [scen7_probability]
  norm_num

lemma toFixed0_sixty : toFixed0 (60 : ℝ) = 60 := by
  unfold toFixed0
  rw [show (⌊(60 : ℝ) + 1 / 2⌋ : ℤ) = 60 from
    Int.floor_eq_iff.mpr (by norm_num)]
  norm_num

lemma scen7_sentences :
    sentences scen7 = [Sentence.clayRich 60, Sentence.steepSlope 45] := by
  unfold sentences
  rw [if_pos (by norm_num [scen7] : scen7.clay / 100 > 0.45),
    if_pos (by norm_num [scen7] : scen7.slope > 35),
    if_neg (by norm_num [scen7] : ¬ scen7.rain > 400),
    if_neg (by norm_num [scen7] : ¬ scen7.rain > 100)]
  show [Sentence.clayRich (toFixed0 scen7.clay)] ++
    [Sentence.steepSlope scen7.slope] ++ [] = _
  rw [show scen7.clay = 60 from rfl, toFixed0_sixty,
    show scen7.slope = 45 from rfl]
  rfl

lemma toFixed2_232 : toFixed2 (23.2 : ℝ) = 23.2 := by
  unfold toFixed2
  rw [show (⌊(23.2 : ℝ) * 100 + 1 / 2⌋ : ℤ) = 2320 from
    Int.floor_eq_iff.mpr (by norm_num)]
  norm_num

/-- Claim C7 counterexample: on the claim's concrete scenario the engine
reports `friction_base = 23.2` (the blend `34·0.2 + 28·0.2 + 18·0.6` is
23.2, not the claim's 23.6), and the returned level is `Low`, not
`Medium` or `High` (the FoS ≈ 1.566 lands in the [1.5, 2) probability
band, giving probability 0.20). -/
theorem C7_scenario_counterexample :
    (calculateLandslideRisk scen7).details.friction_base ≠ 23.6 ∧
    ¬ ((calculateLandslideRisk scen7).level = RiskLevel.Medium ∨
       (calculateLandslideRisk scen7).level = RiskLevel.High) := by
  rw [calc_normal_eq scen7 scen7_not_water scen7_not_snow]
  constructor
  · show toFixed2 (phi scen7) ≠ 23.6
    rw [scen7_phi, toFixed2_232]
    norm_num
  · show ¬ (level scen7 = RiskLevel.Medium ∨ level scen7 = RiskLevel.High)
    rw [scen7_level]
    simp

/-- Claim C7 as amended: on the concrete scenario
`{rain 0, slope 45, clay 60, sand 20, silt 20, bulk_density 130,
elevation 500, temp 20, code 0, isWater false}` the engine reports
`cohesion_base = 23.2` and `friction_base = 23.2` (not 23.6), uses
saturation index 0.1, produces a finite FoS in [1.5, 2), returns level
`Low` (not Medium/High), and the clay-rich narrative clause fires. -/
theorem C7_scenario :
    (calculateLandslideRisk scen7).details.cohesion_base = 23.2 ∧
    (calculateLandslideRisk scen7).details.friction_base = 23.2 ∧
    saturationIndex scen7.rain = 0.1 ∧
    1.5 ≤ (calculateLandslideRisk scen7).details.FoS ∧
    (calculateLandslideRisk scen7).details.FoS < 2 ∧
    (calculateLandslideRisk scen7).level = RiskLevel.Low ∧
    (calculateLandslideRisk scen7).reason =
      [Sentence.clayRich 60, Sentence.steepSlope 45] := by
  rw [calc_normal_eq scen7 scen7_not_water scen7_not_snow]
  obtain ⟨hl, hu⟩ := scen7_FoS_raw_bounds
  refine ⟨?_, ?_, scen7_sat, ?_, ?_, scen7_level, scen7_sentences⟩
  · show toFixed2 (c scen7) = 23.2
    rw [scen7_c, toFixed2_232]
  · show toFixed2 (phi scen7) = 23.2
    rw [scen7_phi, toFixed2_232]
  · show 1.5 ≤ FoS scen7
    rw [scen7_FoS_eq_raw]
    exact hl
  · show FoS scen7 < 2
    rw [scen7_FoS_eq_raw]
    exact hu

end Lapsus
